import Mathlib

/-
Shallow embedding of `src/source/lib/queryExecutionContext/documentProducer.js`
(the `DocumentProducer` class and the `OrderByDocumentProducerComparator`),
together with theorems settling the specification claims about it.

Modelling conventions:
- JavaScript `undefined` is modelled by `Option.none` wherever a field or
  argument may be absent (continuation tokens, callback arguments, fetch
  resources, the `item` property of an order-by item).
- The injected page-fetch abstraction (`internalExecutionContext.fetchMore`,
  which is out of scope per the spec and not part of this repository's
  source) is modelled as a script: a list of `FetchOutcome`s, consumed one
  per actual fetch invocation.  An operation that returns its script
  unchanged did not invoke the fetch abstraction.
- Callback-style completion is modelled by returning the callback's
  arguments (`CbOut`) next to the post-state.  `Option.none` for the whole
  result means the scripted fetch abstraction was exhausted.
- Thrown JS errors are modelled with `Except.error`.
-/

set_option autoImplicit false

namespace DocumentProducerJS

/-- Response headers / metadata channel.  Modelled from the spec: the
`HeaderUtils` module is not part of this repository's source; the spec
describes the metadata channel as an accumulator merged additively across
fetches and drained on read, so headers are a list with `++` as merge. -/
abbrev Headers := List String

/-- Modelled from the spec: `HeaderUtils.getInitialHeader()`, the empty
accumulator. -/
def getInitialHeader : Headers := []

/-- Modelled from the spec: `HeaderUtils.mergeHeaders(a, b)` merges `b`
additively into `a`. -/
def mergeHeaders (a b : Headers) : Headers := a ++ b

/-- A JavaScript value as it can appear in an order-by projection slot:
one of the runtime types the comparator's type table knows about. -/
inductive JSValue where
  | undef
  | bool (b : Bool)
  | num (n : Int)
  | str (s : String)
deriving DecidableEq

/-- JavaScript `typeof v`. -/
def jsTypeof : JSValue → String
  | .undef => "undefined"
  | .bool _ => "boolean"
  | .num _ => "number"
  | .str _ => "string"

/-- One entry of an order-by projection: the wire shape `{item: <value>}`.
`item = none` models an object without an `item` property. -/
structure OrderByItem where
  item : Option JSValue
deriving DecidableEq

/-- JavaScript `key in obj` for an `OrderByItem`: the object's only
possible own property is `item`. -/
def jsHasKey (o : OrderByItem) (k : String) : Bool :=
  k == "item" && o.item.isSome

/-- The `ord` field of `this._typeOrdComparator[t]`: the fixed rank table
`NoValue: 0, undefined: 1, boolean: 2, number: 4, string: 5`; `none` for a
type string that is not a key of the table. -/
def typeOrd : String → Option Int
  | "NoValue" => some 0
  | "undefined" => some 1
  | "boolean" => some 2
  | "number" => some 4
  | "string" => some 5
  | _ => none

/-- The keys of `this._typeOrdComparator`, for JS `key in table` tests. -/
def typeOrdKeys : List String :=
  ["NoValue", "undefined", "boolean", "number", "string"]

/-- The body shared by the `compFunc` entries of the type table:
`(a == b ? 0 : (a > b ? 1 : -1))`, evaluated at two values of the same
runtime type (booleans compare by numeric coercion `true > false`). -/
def jsCmp : JSValue → JSValue → Int
  | .bool a, .bool b => if a == b then 0 else if a && !b then 1 else -1
  | .num a, .num b => if a == b then 0 else if a > b then 1 else -1
  | .str a, .str b => if a == b then 0 else if a > b then 1 else -1
  | _, _ => 0

/-- The `compFunc` field of `this._typeOrdComparator[t]`: present exactly
for `boolean`, `number` and `string`. -/
def compFuncFor : String → Option (JSValue → JSValue → Int)
  | "boolean" => some jsCmp
  | "number" => some jsCmp
  | "string" => some jsCmp
  | _ => none

/-- `getType(orderByItem)`.  Note the two operator-precedence slips kept
faithfully from the source: `!'item' in orderByItem` parses as
`('false') in orderByItem` and `!type in this._typeOrdComparator` parses
as `('false') in this._typeOrdComparator`. -/
def getType (orderByItem : OrderByItem) : Except String String :=
  if jsHasKey orderByItem "false" then Except.ok "NoValue"
  else
    let type := jsTypeof (orderByItem.item.getD JSValue.undef)
    if "false" ∈ typeOrdKeys then Except.error ("unrecognizable type " ++ type)
    else Except.ok type

/-- `compareValue(item1, type1, item2, type2)`.  A type string that is not
a key of the table makes the JS code dereference `undefined`, modelled as
an error; a missing `compFunc` fails the `assert.notEqual`. -/
def compareValue (item1 : JSValue) (type1 : String) (item2 : JSValue) (type2 : String) :
    Except String Int :=
  match typeOrd type1, typeOrd type2 with
  | some type1Ord, some type2Ord =>
    let typeCmp : Int := type1Ord - type2Ord
    if typeCmp ≠ 0 then Except.ok typeCmp
    else if type1Ord = 1 ∨ type1Ord = 0 then Except.ok 0
    else
      match compFuncFor type1 with
      | some compFunc => Except.ok (compFunc item1 item2)
      | none => Except.error "cannot find the comparison function"
  | _, _ => Except.error "TypeError: cannot read property ord of undefined"

/-- `compareOrderByItem(orderByItem1, orderByItem2)`. -/
def compareOrderByItem (orderByItem1 orderByItem2 : OrderByItem) : Except String Int :=
  match getType orderByItem1 with
  | Except.error e => Except.error e
  | Except.ok type1 =>
    match getType orderByItem2 with
    | Except.error e => Except.error e
    | Except.ok type2 =>
      compareValue (orderByItem1.item.getD JSValue.undef) type1
        (orderByItem2.item.getD JSValue.undef) type2

/-- The index loop of `validateOrderByItems`: pairs are `(res1[i], res2[i])`
for `i` below the (already validated, common) length. -/
def validateTypes : List (OrderByItem × OrderByItem) → Except String Unit
  | [] => Except.ok ()
  | (o1, o2) :: rest =>
    match getType o1 with
    | Except.error e => Except.error e
    | Except.ok type1 =>
      match getType o2 with
      | Except.error e => Except.error e
      | Except.ok type2 =>
        if type1 ≠ type2 then
          Except.error ("Expected " ++ type1 ++ ", but got " ++ type2 ++ ".")
        else validateTypes rest

/-- `validateOrderByItems(res1, res2)`.  The first message interpolates the
hoisted, still-`undefined` `type1`/`type2` variables, faithfully rendered. -/
def validateOrderByItems (sortOrder : List String) (res1 res2 : List OrderByItem) :
    Except String Unit :=
  if res1.length ≠ res2.length then
    Except.error "Expected undefined, but got undefined."
  else if res1.length ≠ sortOrder.length then
    Except.error "orderByItems cannot have a different size than sort orders."
  else validateTypes (res1.zip res2)

/-- `targetPartitionKeyRange`: the descriptor of the partition a producer
serves.  Only `minInclusive` is read by the code under study. -/
structure PartitionKeyRange where
  id : String
  minInclusive : String
  maxExclusive : String
deriving DecidableEq

/-- A result item as the order-by comparator sees it: it carries its
`orderByItems` projection.  (`getOrderByItems(res)` reads this field.) -/
structure QueryItem where
  orderByItems : List OrderByItem
deriving DecidableEq

/-- Outcome of one invocation of the injected fetch abstraction
(`internalExecutionContext.fetchMore`): the callback's three arguments and
the value `internalExecutionContext.continuation` holds afterwards.
`resources = none` models the callback receiving `undefined` resources. -/
structure FetchOutcome (α : Type) where
  err : Option String
  resources : Option (List α)
  headers : Headers
  continuation : Option String
deriving DecidableEq

/-- The mutable state of a `DocumentProducer`, as set up by the constructor
and mutated by its methods.  `internalContinuation` mirrors the readable
`internalExecutionContext.continuation` field of the fetch layer. -/
structure DocumentProducer (α : Type) where
  targetPartitionKeyRange : PartitionKeyRange
  itemsBuffer : List α
  allFetched : Bool
  err : Option String
  previousContinuationToken : Option String
  continuationToken : Option String
  internalContinuation : Option String
  respHeaders : Headers
deriving DecidableEq

/-- The arguments `(err, value, headers)` a producer method passes to its
callback; a `none` component models passing `undefined` (or passing fewer
arguments). -/
structure CbOut (β : Type) where
  err : Option String
  val : Option β
  headers : Option Headers
deriving DecidableEq

variable {α : Type}

/-- `peekBufferedItems()`. -/
def peekBufferedItems (that : DocumentProducer α) : List α :=
  that.itemsBuffer

/-- `getTargetParitionKeyRange()` (typo kept from the source). -/
def getTargetParitionKeyRange (that : DocumentProducer α) : PartitionKeyRange :=
  that.targetPartitionKeyRange

/-- `_updateStates(err, allFetched)`. -/
def updateStates (that : DocumentProducer α) (err : Option String) (allFetched : Bool) :
    DocumentProducer α :=
  match err with
  | some e => { that with err := some e }
  | none =>
    let that1 := if allFetched then { that with allFetched := true } else that
    if that1.internalContinuation = that1.continuationToken then that1
    else
      { that1 with
        previousContinuationToken := that1.continuationToken
        continuationToken := that1.internalContinuation }

/-- `consumeBufferedItems()`: returns the buffer, empties it, and runs
`_updateStates(undefined, continuationToken === null || === undefined)`. -/
def consumeBufferedItems (that : DocumentProducer α) : List α × DocumentProducer α :=
  let res := that.itemsBuffer
  let that1 := { that with itemsBuffer := ([] : List α) }
  (res, updateStates that1 none that1.continuationToken.isNone)

/-- `bufferMore(callback)`.  The script supplies outcomes for actual fetch
invocations; the sticky-error short-circuit consumes nothing from it.
`none` means the script was exhausted by a fetch invocation. -/
def bufferMore (that : DocumentProducer α) (script : List (FetchOutcome α)) :
    Option (DocumentProducer α × CbOut (List α) × List (FetchOutcome α)) :=
  match that.err with
  | some e => some (that, ⟨some e, none, none⟩, script)
  | none =>
    match script with
    | [] => none
    | f :: rest =>
      let that0 := { that with internalContinuation := f.continuation }
      let that1 := updateStates that0 f.err f.resources.isNone
      match f.err with
      | some e => some (that1, ⟨some e, none, some f.headers⟩, rest)
      | none =>
        match f.resources with
        | some resources =>
          some ({ that1 with itemsBuffer := that1.itemsBuffer ++ resources },
            ⟨none, some resources, some f.headers⟩, rest)
        | none => some (that1, ⟨none, none, some f.headers⟩, rest)

/-- `current(callback)`, fuelled: the recursive retry-after-refill consumes
one unit of fuel per refill that returned resources. -/
def currentFuel : Nat → DocumentProducer α → List (FetchOutcome α) →
    Option (DocumentProducer α × CbOut α × List (FetchOutcome α))
  | 0, _, _ => none
  | Nat.succ fuel, that, script =>
    if 0 < that.itemsBuffer.length then
      some ({ that with respHeaders := getInitialHeader },
        ⟨none, that.itemsBuffer.head?, some that.respHeaders⟩, script)
    else if that.allFetched then
      some ({ that with respHeaders := getInitialHeader },
        ⟨none, none, some that.respHeaders⟩, script)
    else
      match bufferMore that script with
      | none => none
      | some (that1, cb, rest) =>
        match cb.err with
        | some e => some (that1, ⟨some e, none, cb.headers⟩, rest)
        | none =>
          match cb.val with
          | none => some (that1, ⟨none, none, cb.headers⟩, rest)
          | some _ =>
            currentFuel fuel
              { that1 with
                respHeaders := mergeHeaders that1.respHeaders (cb.headers.getD getInitialHeader) }
              rest

/-- `current(callback)`.  `script.length + 1` fuel always suffices: each
recursive retry first consumes one scripted fetch. -/
def current (that : DocumentProducer α) (script : List (FetchOutcome α)) :
    Option (DocumentProducer α × CbOut α × List (FetchOutcome α)) :=
  currentFuel (script.length + 1) that script

/-- `nextItem(callback)`.  The last component reports the outcome of
`assert.equal(extracted, item)`: `none` when the assertion site was not
reached, `some b` for an executed assertion with verdict `b`. -/
def nextItem [DecidableEq α] (that : DocumentProducer α) (script : List (FetchOutcome α)) :
    Option (DocumentProducer α × CbOut α × List (FetchOutcome α) × Option Bool) :=
  match that.err with
  | some e => some (that, ⟨some e, none, none⟩, script, none)
  | none =>
    match current that script with
    | none => none
    | some (that1, cb, rest) =>
      match cb.err with
      | some e => some (that1, ⟨some e, none, cb.headers⟩, rest, none)
      | none =>
        let extracted := that1.itemsBuffer.head?
        let that2 := { that1 with itemsBuffer := that1.itemsBuffer.tail }
        some (that2, ⟨none, cb.val, cb.headers⟩, rest, some (decide (extracted = cb.val)))

/-- One `bufferMore` call per scripted outcome, stopping on a callback
error; used to express "a sequence of refills". -/
def runRefills : DocumentProducer α → List (FetchOutcome α) → Option (DocumentProducer α)
  | that, [] => some that
  | that, f :: rest =>
    match bufferMore that [f] with
    | some (that1, cb, _) => if cb.err.isSome then none else runRefills that1 rest
    | none => none

/-- `createTargetPartitionKeyRangeComparator()`'s comparator body. -/
def targetPartitionKeyRangeDocProdComparator (docProd1 docProd2 : DocumentProducer QueryItem) :
    Int :=
  let a := (getTargetParitionKeyRange docProd1).minInclusive
  let b := (getTargetParitionKeyRange docProd2).minInclusive
  if a = b then 0 else if a > b then 1 else -1

/-- `getOrderByItems(res)`. -/
def getOrderByItems (res : QueryItem) : List OrderByItem :=
  res.orderByItems

/-- The index loop of `compare`: pairs are `(orderByItemsRes1[i],
orderByItemsRes2[i])` and the direction list advances with `i`; an index
beyond `sortOrder` reads JS `undefined`, which matches neither direction
string, so the loop falls through (getD ""). -/
def compareLoop : List (OrderByItem × OrderByItem) → List String → Except String (Option Int)
  | [], _ => Except.ok none
  | (o1, o2) :: rest, sortOrder =>
    match compareOrderByItem o1 o2 with
    | Except.error e => Except.error e
    | Except.ok compRes =>
      if compRes ≠ 0 then
        if sortOrder.head?.getD "" = "Ascending" then Except.ok (some compRes)
        else if sortOrder.head?.getD "" = "Descending" then Except.ok (some (-compRes))
        else compareLoop rest sortOrder.tail
      else compareLoop rest sortOrder.tail

/-- `OrderByDocumentProducerComparator.compare(docProd1, docProd2)` for a
comparator constructed with the given `sortOrder`.  Reading
`peekBufferedItems()[0]` of an empty buffer makes `getOrderByItems`
dereference `undefined`, modelled as an error. -/
def compare (sortOrder : List String) (docProd1 docProd2 : DocumentProducer QueryItem) :
    Except String Int :=
  match (peekBufferedItems docProd1).head? with
  | none => Except.error "TypeError: cannot read orderByItems of undefined"
  | some res1 =>
    match (peekBufferedItems docProd2).head? with
    | none => Except.error "TypeError: cannot read orderByItems of undefined"
    | some res2 =>
      let orderByItemsRes1 := getOrderByItems res1
      let orderByItemsRes2 := getOrderByItems res2
      match validateOrderByItems sortOrder orderByItemsRes1 orderByItemsRes2 with
      | Except.error e => Except.error e
      | Except.ok _ =>
        match compareLoop (orderByItemsRes1.zip orderByItemsRes2) sortOrder with
        | Except.error e => Except.error e
        | Except.ok (some r) => Except.ok r
        | Except.ok none =>
          Except.ok (targetPartitionKeyRangeDocProdComparator docProd1 docProd2)

/-- A fresh producer holding the given buffer, as the comparator sees it. -/
def mkQueryProducer (buf : List QueryItem) (pk : PartitionKeyRange) :
    DocumentProducer QueryItem :=
  ⟨pk, buf, false, none, none, none, none, getInitialHeader⟩

/-- Fixture: a partition whose key range starts at `"0000"`. -/
def rangeLow : PartitionKeyRange := ⟨"0", "0000", "3FFF"⟩

/-- Fixture: a partition whose key range starts at `"3FFF"`. -/
def rangeHigh : PartitionKeyRange := ⟨"1", "3FFF", "FF"⟩

/-- The producer state after a successful `bufferMore` fetch that returned
`items`: cursors updated, items appended. -/
def afterFetch {α : Type} (s : DocumentProducer α) (f : FetchOutcome α) (items : List α) :
    DocumentProducer α :=
  { updateStates { s with internalContinuation := f.continuation } none false with
    itemsBuffer := s.itemsBuffer ++ items }

/-- Producer fixture: fresh state, empty buffer, no error. -/
def stickySeed : DocumentProducer Nat :=
  ⟨rangeLow, [], false, none, none, none, none, getInitialHeader⟩

/-- Fixture: a successful fetch delivering one item. -/
def fetchOk42 : FetchOutcome Nat := ⟨none, some [42], ["h1"], some "c1"⟩

/-- Fixture: a failing fetch. -/
def fetchFailE : FetchOutcome Nat := ⟨some "E", none, ["h2"], some "c1"⟩

/-- State after `bufferMore` consumed `fetchOk42` from `stickySeed`. -/
def stickyS1 : DocumentProducer Nat :=
  ⟨rangeLow, [42], false, none, none, some "c1", some "c1", []⟩

/-- State after a further `bufferMore` consumed `fetchFailE`: the sticky
error is set while one item is still buffered. -/
def stickyS2 : DocumentProducer Nat :=
  ⟨rangeLow, [42], false, some "E", none, some "c1", some "c1", []⟩

/-- Fixture: two successful refills delivering `[1, 2]` then `[3]`. -/
def drainScript : List (FetchOutcome Nat) :=
  [⟨none, some [1, 2], [], some "c1"⟩, ⟨none, some [3], [], none⟩]

/-- Fixture: a producer with two buffered items. -/
def nextSeed : DocumentProducer Nat := ⟨rangeLow, [7, 8], false, none, none, none, none, []⟩

/-- `nextSeed` after one `nextItem`: head removed, rest untouched. -/
def nextAfter : DocumentProducer Nat := ⟨rangeLow, [8], false, none, none, none, none, []⟩

/-- Fixture: an exhausted producer with pending response headers. -/
def exhaustedSeed : DocumentProducer Nat := ⟨rangeLow, [], true, none, none, none, none, ["m"]⟩

/-! Shared lemmas about the comparator. -/

theorem getType_eq (o : OrderByItem) :
    getType o = Except.ok (jsTypeof (o.item.getD JSValue.undef)) := by
  simp [getType, jsHasKey, typeOrdKeys]

theorem compareOrderByItem_eq (o1 o2 : OrderByItem) :
    compareOrderByItem o1 o2 =
      compareValue (o1.item.getD JSValue.undef) (jsTypeof (o1.item.getD JSValue.undef))
        (o2.item.getD JSValue.undef) (jsTypeof (o2.item.getD JSValue.undef)) := by
  simp only [compareOrderByItem, getType_eq]

theorem compareValue_typeof_isOk (v1 v2 : JSValue) :
    ∃ n : Int, compareValue v1 (jsTypeof v1) v2 (jsTypeof v2) = Except.ok n := by
  cases v1 <;> cases v2 <;>
    simp [compareValue, jsTypeof, typeOrd, compFuncFor]

theorem compareOrderByItem_isOk (o1 o2 : OrderByItem) :
    ∃ n : Int, compareOrderByItem o1 o2 = Except.ok n := by
  rw [compareOrderByItem_eq]
  exact compareValue_typeof_isOk _ _

theorem compareLoop_isOk (pairs : List (OrderByItem × OrderByItem)) (sortOrder : List String) :
    ∃ r : Option Int, compareLoop pairs sortOrder = Except.ok r := by
  induction pairs generalizing sortOrder with
  | nil => exact ⟨none, rfl⟩
  | cons p rest ih =>
    obtain ⟨o1, o2⟩ := p
    obtain ⟨n, hn⟩ := compareOrderByItem_isOk o1 o2
    rw [compareLoop, hn]
    by_cases h0 : n = 0
    · simpa [h0] using ih sortOrder.tail
    · by_cases ha : sortOrder.head?.getD "" = "Ascending"
      · exact ⟨some n, by simp [h0, ha]⟩
      · by_cases hd : sortOrder.head?.getD "" = "Descending"
        · exact ⟨some (-n), by simp [h0, ha, hd]⟩
        · simpa [h0, ha, hd] using ih sortOrder.tail

theorem compareLoop_all_zero (pairs : List (OrderByItem × OrderByItem)) (sortOrder : List String)
    (h : ∀ p ∈ pairs, compareOrderByItem p.1 p.2 = Except.ok 0) :
    compareLoop pairs sortOrder = Except.ok none := by
  induction pairs generalizing sortOrder with
  | nil => rfl
  | cons p rest ih =>
    obtain ⟨o1, o2⟩ := p
    have h0 : compareOrderByItem o1 o2 = Except.ok 0 := h (o1, o2) (List.mem_cons_self _ _)
    rw [compareLoop, h0]
    simpa using ih sortOrder.tail fun p hp => h p (List.mem_cons_of_mem _ hp)

theorem validateTypes_ok_iff (pairs : List (OrderByItem × OrderByItem)) :
    validateTypes pairs = Except.ok () ↔ ∀ p ∈ pairs, getType p.1 = getType p.2 := by
  induction pairs with
  | nil => simp [validateTypes]
  | cons p rest ih =>
    obtain ⟨o1, o2⟩ := p
    rw [validateTypes, getType_eq, getType_eq]
    by_cases hty : jsTypeof (o1.item.getD JSValue.undef) = jsTypeof (o2.item.getD JSValue.undef)
    · simp [hty, ih, getType_eq]
    · simp [hty, getType_eq]

theorem compareOrderByItem_zero_types (o1 o2 : OrderByItem)
    (h : compareOrderByItem o1 o2 = Except.ok 0) : getType o1 = getType o2 := by
  rw [getType_eq, getType_eq]
  rw [compareOrderByItem_eq] at h
  generalize o1.item.getD JSValue.undef = v1 at h ⊢
  generalize o2.item.getD JSValue.undef = v2 at h ⊢
  cases v1 <;> cases v2 <;>
    simp_all [jsTypeof, compareValue, typeOrd, compFuncFor]

theorem validateOrderByItems_ok_iff (sortOrder : List String) (res1 res2 : List OrderByItem) :
    validateOrderByItems sortOrder res1 res2 = Except.ok () ↔
      (res1.length = res2.length ∧ res1.length = sortOrder.length ∧
        ∀ p ∈ res1.zip res2, getType p.1 = getType p.2) := by
  unfold validateOrderByItems
  by_cases hl1 : res1.length = res2.length
  · by_cases hl2 : res1.length = sortOrder.length
    · rw [if_neg (fun h => h hl1), if_neg (fun h => h hl2)]
      rw [validateTypes_ok_iff]
      exact ⟨fun h => ⟨hl1, hl2, h⟩, fun h => h.2.2⟩
    · rw [if_neg (fun h => h hl1), if_pos hl2]
      simp [hl2]
  · rw [if_pos hl1]
    simp [hl1]

end DocumentProducerJS

open DocumentProducerJS

/-- Claim C9: `getType` never returns the `NoValue` (Absent) classification —
because `!'item' in orderByItem` parses as `('false') in orderByItem` — so an
item lacking an `item` property is classified by `typeof` of its `undefined`
`item` field, making Absent indistinguishable from Null/Undefined; and the
unrecognized-type validation in `getType` never throws. -/
theorem claim_C9_getType_noValue_unreachable (o : OrderByItem) :
    getType o = Except.ok (jsTypeof (o.item.getD JSValue.undef)) ∧
    getType o ≠ Except.ok "NoValue" ∧
    getType ⟨none⟩ = getType ⟨some JSValue.undef⟩ ∧
    getType ⟨none⟩ = Except.ok "undefined" := by
  refine ⟨getType_eq o, ?_, rfl, rfl⟩
  rw [getType_eq]
  cases o.item.getD JSValue.undef <;> simp [jsTypeof]

theorem claim_C9_witness :
    getType ⟨some (JSValue.num 5)⟩ =
      Except.ok (jsTypeof ((⟨some (JSValue.num 5)⟩ : OrderByItem).item.getD JSValue.undef)) ∧
    getType ⟨some (JSValue.num 5)⟩ ≠ Except.ok "NoValue" ∧
    getType ⟨none⟩ = getType ⟨some JSValue.undef⟩ ∧
    getType ⟨none⟩ = Except.ok "undefined" :=
  claim_C9_getType_noValue_unreachable ⟨some (JSValue.num 5)⟩

/-- Claim C7: when both values at a key position have the same ValueKind and
that kind is Absent (`NoValue`) or Null/Undefined (`undefined`), the per-key
comparison returns zero regardless of the values themselves, and the
comparison loop proceeds to the next key position. -/
theorem claim_C7_missing_values_equal :
    (∀ v1 v2 : JSValue,
        compareValue v1 "NoValue" v2 "NoValue" = Except.ok 0 ∧
        compareValue v1 "undefined" v2 "undefined" = Except.ok 0) ∧
    (∀ (o1 o2 : OrderByItem) (rest : List (OrderByItem × OrderByItem))
        (sortOrder : List String),
        compareOrderByItem o1 o2 = Except.ok 0 →
        compareLoop ((o1, o2) :: rest) sortOrder = compareLoop rest sortOrder.tail) := by
  constructor
  · intro v1 v2
    constructor <;> simp [compareValue, typeOrd]
  · intro o1 o2 rest sortOrder h
    rw [compareLoop, h]
    simp

theorem claim_C7_witness :
    compareValue (JSValue.num 3) "undefined" (JSValue.str "x") "undefined" = Except.ok 0 ∧
    compareLoop [(⟨none⟩, ⟨some JSValue.undef⟩), (⟨some (JSValue.num 1)⟩, ⟨some (JSValue.num 2)⟩)]
        ["Ascending", "Ascending"] =
      compareLoop [(⟨some (JSValue.num 1)⟩, ⟨some (JSValue.num 2)⟩)] ["Ascending"] :=
  ⟨(claim_C7_missing_values_equal.1 (JSValue.num 3) (JSValue.str "x")).2,
    claim_C7_missing_values_equal.2 ⟨none⟩ ⟨some JSValue.undef⟩
      [(⟨some (JSValue.num 1)⟩, ⟨some (JSValue.num 2)⟩)] ["Ascending", "Ascending"] rfl⟩



/-- Claim C6 counterexample: the claim's literal inputs — head projections
`[{item:5}]` (Number) and `[{item:"a"}]` (String) under SortSpec
`[Ascending]` — do not make `compare` return a negative result: `compare`
validates first and raises `Expected number, but got string.`. -/
theorem claim_C6_counterexample :
    DocumentProducerJS.compare ["Ascending"]
        (mkQueryProducer [⟨[⟨some (JSValue.num 5)⟩]⟩] rangeLow)
        (mkQueryProducer [⟨[⟨some (JSValue.str "a")⟩]⟩] rangeHigh) =
      Except.error "Expected number, but got string." ∧
    DocumentProducerJS.compare ["Ascending"]
        (mkQueryProducer [⟨[⟨some (JSValue.num 5)⟩]⟩] rangeLow)
        (mkQueryProducer [⟨[⟨some (JSValue.str "a")⟩]⟩] rangeHigh) ≠
      Except.ok (-1) := by
  constructor
  · rfl
  · intro h
    rw [show DocumentProducerJS.compare ["Ascending"]
        (mkQueryProducer [⟨[⟨some (JSValue.num 5)⟩]⟩] rangeLow)
        (mkQueryProducer [⟨[⟨some (JSValue.str "a")⟩]⟩] rangeHigh) =
      Except.error "Expected number, but got string." from rfl] at h
    exact Except.noConfusion h

/-- Claim C6, amended: for differing ValueKinds, the per-key comparison
(`compareOrderByItem`, through `compareValue`) is decided purely by the
fixed kind ranks (`NoValue` 0 < `undefined` 1 < `boolean` 2 < `number` 4 <
`string` 5), returning rank1 − rank2; in particular `[{item:5}]` vs
`[{item:"a"}]` yields the negative result −1 at that level.  The full
`compare` on two producers with those head projections, however, raises
the validation error instead of returning a value. -/
theorem claim_C6_amended :
    (∀ o1 o2 : OrderByItem,
        jsTypeof (o1.item.getD JSValue.undef) ≠ jsTypeof (o2.item.getD JSValue.undef) →
        compareOrderByItem o1 o2 =
          Except.ok ((typeOrd (jsTypeof (o1.item.getD JSValue.undef))).getD 0 -
            (typeOrd (jsTypeof (o2.item.getD JSValue.undef))).getD 0)) ∧
    typeOrd "NoValue" = some 0 ∧ typeOrd "undefined" = some 1 ∧
    typeOrd "boolean" = some 2 ∧ typeOrd "number" = some 4 ∧ typeOrd "string" = some 5 ∧
    compareOrderByItem ⟨some (JSValue.num 5)⟩ ⟨some (JSValue.str "a")⟩ = Except.ok (-1) ∧
    DocumentProducerJS.compare ["Ascending"]
        (mkQueryProducer [⟨[⟨some (JSValue.num 5)⟩]⟩] rangeLow)
        (mkQueryProducer [⟨[⟨some (JSValue.str "a")⟩]⟩] rangeHigh) =
      Except.error "Expected number, but got string." := by
  refine ⟨?_, rfl, rfl, rfl, rfl, rfl, rfl, rfl⟩
  intro o1 o2 hne
  rw [compareOrderByItem_eq]
  generalize o1.item.getD JSValue.undef = v1 at hne ⊢
  generalize o2.item.getD JSValue.undef = v2 at hne ⊢
  cases v1 <;> cases v2 <;>
    simp_all [jsTypeof, compareValue, typeOrd, compFuncFor]

theorem claim_C6_amended_witness :
    compareOrderByItem ⟨some (JSValue.bool true)⟩ ⟨some (JSValue.str "a")⟩ =
      Except.ok ((typeOrd (jsTypeof ((⟨some (JSValue.bool true)⟩ : OrderByItem).item.getD
          JSValue.undef))).getD 0 -
        (typeOrd (jsTypeof ((⟨some (JSValue.str "a")⟩ : OrderByItem).item.getD
          JSValue.undef))).getD 0) :=
  claim_C6_amended.1 ⟨some (JSValue.bool true)⟩ ⟨some (JSValue.str "a")⟩ (by decide)

/-- Claim C5 counterexample: two projections of equal length (both empty,
hence vacuously pointwise-kind-equal) still raise a validation error when
their common length differs from the SortSpec length; the claim's converse
direction ("equal length and pointwise-equal kinds ⟹ no validation
error") is therefore false as stated. -/
theorem claim_C5_counterexample :
    ([] : List OrderByItem).length = ([] : List OrderByItem).length ∧
    validateOrderByItems ["Ascending"] [] [] =
      Except.error "orderByItems cannot have a different size than sort orders." ∧
    DocumentProducerJS.compare ["Ascending"]
        (mkQueryProducer [⟨[]⟩] rangeLow) (mkQueryProducer [⟨[]⟩] rangeHigh) =
      Except.error "orderByItems cannot have a different size than sort orders." :=
  ⟨rfl, rfl, rfl⟩

/-- Claim C5, amended: with both producers' head items present, `compare`
raises an error iff the projections' lengths differ, or their common
length differs from the SortSpec length, or the ValueKinds differ at some
position; when all three shape conditions hold no validation error is
raised.  (Validation precedes the comparison loop, so a raising `compare`
performs no per-value comparison.) -/
theorem claim_C5_amended (sortOrder : List String) (dp1 dp2 : DocumentProducer QueryItem)
    (q1 q2 : QueryItem) (h1 : dp1.itemsBuffer.head? = some q1)
    (h2 : dp2.itemsBuffer.head? = some q2) :
    (∃ m, DocumentProducerJS.compare sortOrder dp1 dp2 = Except.error m) ↔
      ¬ (q1.orderByItems.length = q2.orderByItems.length ∧
         q1.orderByItems.length = sortOrder.length ∧
         ∀ p ∈ q1.orderByItems.zip q2.orderByItems, getType p.1 = getType p.2) := by
  have hcmp : DocumentProducerJS.compare sortOrder dp1 dp2 =
      (match validateOrderByItems sortOrder q1.orderByItems q2.orderByItems with
        | Except.error e => Except.error e
        | Except.ok _ =>
          match compareLoop (q1.orderByItems.zip q2.orderByItems) sortOrder with
          | Except.error e => Except.error e
          | Except.ok (some r) => Except.ok r
          | Except.ok none => Except.ok (targetPartitionKeyRangeDocProdComparator dp1 dp2)) := by
    simp only [DocumentProducerJS.compare, peekBufferedItems, getOrderByItems, h1, h2]
  rcases hv : validateOrderByItems sortOrder q1.orderByItems q2.orderByItems with m | u
  · rw [hv] at hcmp
    constructor
    · intro _ hcond
      have hok := (validateOrderByItems_ok_iff sortOrder q1.orderByItems q2.orderByItems).mpr hcond
      rw [hv] at hok
      exact Except.noConfusion hok
    · intro _
      exact ⟨m, hcmp⟩
  · cases u
    have hcond := (validateOrderByItems_ok_iff sortOrder q1.orderByItems q2.orderByItems).mp hv
    obtain ⟨r, hr⟩ := compareLoop_isOk (q1.orderByItems.zip q2.orderByItems) sortOrder
    rw [hv, hr] at hcmp
    constructor
    · rintro ⟨m, hm⟩ _
      rw [hcmp] at hm
      cases r <;> exact Except.noConfusion hm
    · intro hn
      exact absurd hcond hn

theorem claim_C5_amended_witness :
    (∃ m, DocumentProducerJS.compare ["Ascending"]
        (mkQueryProducer [⟨[⟨some (JSValue.num 5)⟩]⟩] rangeLow)
        (mkQueryProducer [⟨[⟨some (JSValue.str "a")⟩]⟩] rangeHigh) = Except.error m) ↔
      ¬ ((⟨[⟨some (JSValue.num 5)⟩]⟩ : QueryItem).orderByItems.length =
           (⟨[⟨some (JSValue.str "a")⟩]⟩ : QueryItem).orderByItems.length ∧
         (⟨[⟨some (JSValue.num 5)⟩]⟩ : QueryItem).orderByItems.length =
           (["Ascending"] : List String).length ∧
         ∀ p ∈ (⟨[⟨some (JSValue.num 5)⟩]⟩ : QueryItem).orderByItems.zip
             (⟨[⟨some (JSValue.str "a")⟩]⟩ : QueryItem).orderByItems,
           getType p.1 = getType p.2) :=
  claim_C5_amended ["Ascending"]
    (mkQueryProducer [⟨[⟨some (JSValue.num 5)⟩]⟩] rangeLow)
    (mkQueryProducer [⟨[⟨some (JSValue.str "a")⟩]⟩] rangeHigh)
    ⟨[⟨some (JSValue.num 5)⟩]⟩ ⟨[⟨some (JSValue.str "a")⟩]⟩ rfl rfl

/-- Claim C2: when both head projections compare equal at every sort-key
position (and have the validated shape), `compare` falls through to the
partition-range tie-break, which orders by `minInclusive` ascending for
every SortSpec, independently of the per-key directions; a strictly
smaller lower bound yields −1 (first producer first). -/
theorem claim_C2_tie_break (sortOrder : List String) (dp1 dp2 : DocumentProducer QueryItem)
    (q1 q2 : QueryItem) (h1 : dp1.itemsBuffer.head? = some q1)
    (h2 : dp2.itemsBuffer.head? = some q2)
    (hl1 : q1.orderByItems.length = q2.orderByItems.length)
    (hl2 : q1.orderByItems.length = sortOrder.length)
    (hzero : ∀ p ∈ q1.orderByItems.zip q2.orderByItems,
        compareOrderByItem p.1 p.2 = Except.ok 0) :
    DocumentProducerJS.compare sortOrder dp1 dp2 =
      Except.ok (targetPartitionKeyRangeDocProdComparator dp1 dp2) ∧
    ((getTargetParitionKeyRange dp1).minInclusive <
        (getTargetParitionKeyRange dp2).minInclusive →
      DocumentProducerJS.compare sortOrder dp1 dp2 = Except.ok (-1)) := by
  have hty : ∀ p ∈ q1.orderByItems.zip q2.orderByItems, getType p.1 = getType p.2 :=
    fun p hp => compareOrderByItem_zero_types p.1 p.2 (hzero p hp)
  have hv : validateOrderByItems sortOrder q1.orderByItems q2.orderByItems = Except.ok () :=
    (validateOrderByItems_ok_iff _ _ _).mpr ⟨hl1, hl2, hty⟩
  have hloop := compareLoop_all_zero (q1.orderByItems.zip q2.orderByItems) sortOrder hzero
  have hcmp : DocumentProducerJS.compare sortOrder dp1 dp2 =
      Except.ok (targetPartitionKeyRangeDocProdComparator dp1 dp2) := by
    simp only [DocumentProducerJS.compare, peekBufferedItems, getOrderByItems, h1, h2, hv, hloop]
  refine ⟨hcmp, fun hlt => ?_⟩
  rw [hcmp]
  simp only [targetPartitionKeyRangeDocProdComparator]
  split_ifs with hab hgt
  · exact absurd hab (ne_of_lt hlt)
  · exact absurd hgt (lt_asymm hlt)
  · rfl

theorem claim_C2_witness :
    DocumentProducerJS.compare ["Descending"]
        (mkQueryProducer [⟨[⟨some (JSValue.num 10)⟩]⟩] rangeLow)
        (mkQueryProducer [⟨[⟨some (JSValue.num 10)⟩]⟩] rangeHigh) = Except.ok (-1) := by
  refine (claim_C2_tie_break ["Descending"]
      (mkQueryProducer [⟨[⟨some (JSValue.num 10)⟩]⟩] rangeLow)
      (mkQueryProducer [⟨[⟨some (JSValue.num 10)⟩]⟩] rangeHigh)
      ⟨[⟨some (JSValue.num 10)⟩]⟩ ⟨[⟨some (JSValue.num 10)⟩]⟩
      rfl rfl rfl rfl ?_).2 ?_
  · intro p hp
    have hz : (⟨[⟨some (JSValue.num 10)⟩]⟩ : QueryItem).orderByItems.zip
        (⟨[⟨some (JSValue.num 10)⟩]⟩ : QueryItem).orderByItems =
        [(⟨some (JSValue.num 10)⟩, ⟨some (JSValue.num 10)⟩)] := rfl
    rw [hz, List.mem_singleton] at hp
    subst hp
    rfl
  · show ("0000" : String) < "3FFF"
    rw [String.lt_iff_toList_lt]
    decide

theorem updateStates_itemsBuffer {α : Type} (s : DocumentProducer α) (e : Option String)
    (a : Bool) : (updateStates s e a).itemsBuffer = s.itemsBuffer := by
  unfold updateStates
  cases e
  · dsimp only
    split <;> split <;> rfl
  · rfl

theorem updateStates_err_none {α : Type} (s : DocumentProducer α) (a : Bool) :
    (updateStates s none a).err = s.err := by
  unfold updateStates
  dsimp only
  split <;> split <;> rfl

theorem afterFetch_err {α : Type} (s : DocumentProducer α) (f : FetchOutcome α)
    (items : List α) : (afterFetch s f items).err = s.err := by
  show (updateStates { s with internalContinuation := f.continuation } none false).err = s.err
  rw [updateStates_err_none]

theorem afterFetch_itemsBuffer {α : Type} (s : DocumentProducer α) (f : FetchOutcome α)
    (items : List α) : (afterFetch s f items).itemsBuffer = s.itemsBuffer ++ items := rfl

theorem bufferMore_fetch_ok {α : Type} (s : DocumentProducer α) (f : FetchOutcome α)
    (rest : List (FetchOutcome α)) (hs : s.err = none) (hf : f.err = none)
    (items : List α) (hres : f.resources = some items) :
    bufferMore s (f :: rest) =
      some (afterFetch s f items, ⟨none, some items, some f.headers⟩, rest) := by
  simp only [bufferMore, afterFetch, hs, hf, hres, Option.isNone_some, updateStates_itemsBuffer]

theorem runRefills_ok {α : Type} (outcomes : List (FetchOutcome α)) :
    ∀ s : DocumentProducer α, s.err = none →
    (∀ f ∈ outcomes, f.err = none ∧ f.resources.isSome) →
    ∃ s' : DocumentProducer α, runRefills s outcomes = some s' ∧
      s'.itemsBuffer = s.itemsBuffer ++ (outcomes.map (fun f => f.resources.getD [])).flatten ∧
      s'.err = none := by
  induction outcomes with
  | nil =>
    intro s hs _
    exact ⟨s, rfl, by simp, hs⟩
  | cons f rest ih =>
    intro s hs hok
    obtain ⟨hferr, hfres⟩ := hok f (List.mem_cons_self _ _)
    obtain ⟨items, hitems⟩ := Option.isSome_iff_exists.mp hfres
    have hbm := bufferMore_fetch_ok s f [] hs hferr items hitems
    have hrr : runRefills s (f :: rest) = runRefills (afterFetch s f items) rest := by
      simp only [runRefills, hbm]
      rfl
    obtain ⟨s', hrun, hbuf, herr⟩ := ih (afterFetch s f items)
      (by rw [afterFetch_err]; exact hs)
      (fun g hg => hok g (List.mem_cons_of_mem _ hg))
    refine ⟨s', by rw [hrr]; exact hrun, ?_, herr⟩
    rw [hbuf, afterFetch_itemsBuffer]
    simp [hitems]

/-- Claim C8: after a successful `_updateStates` (no error): if the fetch
layer's reported cursor equals the recorded continuation cursor, both the
continuation cursor and the previous cursor are unchanged; otherwise the
previous cursor takes the old continuation cursor and the continuation
cursor takes the fetch layer's value. -/
theorem claim_C8_cursor_bookkeeping {α : Type} (s : DocumentProducer α) (allFetched : Bool) :
    (s.internalContinuation = s.continuationToken →
      (updateStates s none allFetched).continuationToken = s.continuationToken ∧
      (updateStates s none allFetched).previousContinuationToken =
        s.previousContinuationToken) ∧
    (s.internalContinuation ≠ s.continuationToken →
      (updateStates s none allFetched).previousContinuationToken = s.continuationToken ∧
      (updateStates s none allFetched).continuationToken = s.internalContinuation) := by
  constructor
  · intro h
    unfold updateStates
    cases allFetched <;> simp [h]
  · intro h
    unfold updateStates
    cases allFetched <;> simp [h]

theorem claim_C8_witness :
    (updateStates stickyS1 none true).continuationToken = stickyS1.continuationToken ∧
    (updateStates stickyS1 none true).previousContinuationToken =
      stickyS1.previousContinuationToken :=
  (claim_C8_cursor_bookkeeping stickyS1 true).1 rfl

/-- Claim C1 counterexample: a producer whose second fetch failed with `"E"`
(sticky error set) but whose buffer still holds the item `42` from the
first fetch.  A subsequent `current` call does not invoke its callback
with `"E"`: it succeeds with the buffered item. -/
theorem claim_C1_counterexample :
    bufferMore stickySeed [fetchOk42, fetchFailE] =
      some (stickyS1, ⟨none, some [42], some ["h1"]⟩, [fetchFailE]) ∧
    bufferMore stickyS1 [fetchFailE] = some (stickyS2, ⟨some "E", none, some ["h2"]⟩, []) ∧
    stickyS2.err = some "E" ∧
    current stickyS2 [] = some (stickyS2, ⟨none, some 42, some []⟩, []) :=
  ⟨rfl, rfl, rfl, rfl⟩

/-- Claim C1, amended: once the sticky error `E` is set, `bufferMore` and
`nextItem` always invoke their callback with exactly `E`; `current`
invokes its callback with `E` exactly when the buffer is empty and the
producer is not exhausted — with a non-empty buffer it returns the head
item, and with an empty buffer and the exhaustion flag set it reports "no
item", both without error.  In every case the injected fetch abstraction
is never invoked again (the script is returned untouched). -/
theorem claim_C1_amended {α : Type} [DecidableEq α] (s : DocumentProducer α) (e : String)
    (script : List (FetchOutcome α)) (he : s.err = some e) :
    bufferMore s script = some (s, ⟨some e, none, none⟩, script) ∧
    nextItem s script = some (s, ⟨some e, none, none⟩, script, none) ∧
    (s.itemsBuffer = [] → s.allFetched = false →
      current s script = some (s, ⟨some e, none, none⟩, script)) ∧
    (0 < s.itemsBuffer.length →
      current s script = some ({ s with respHeaders := getInitialHeader },
        ⟨none, s.itemsBuffer.head?, some s.respHeaders⟩, script)) ∧
    (s.itemsBuffer = [] → s.allFetched = true →
      current s script = some ({ s with respHeaders := getInitialHeader },
        ⟨none, none, some s.respHeaders⟩, script)) := by
  refine ⟨?_, ?_, ?_, ?_, ?_⟩
  · simp [bufferMore, he]
  · simp [nextItem, he]
  · intro hb ha
    simp [current, currentFuel, bufferMore, he, hb, ha]
  · intro hbl
    simp [current, currentFuel, hbl]
  · intro hb ha
    simp [current, currentFuel, hb, ha]

theorem claim_C1_amended_witness :
    bufferMore stickyS2 [] = some (stickyS2, ⟨some "E", none, none⟩, []) ∧
    nextItem stickyS2 [] = some (stickyS2, ⟨some "E", none, none⟩, [], none) ∧
    current stickyS2 [] = some ({ stickyS2 with respHeaders := getInitialHeader },
      ⟨none, stickyS2.itemsBuffer.head?, some stickyS2.respHeaders⟩, []) :=
  ⟨(claim_C1_amended stickyS2 "E" [] rfl).1,
    (claim_C1_amended stickyS2 "E" [] rfl).2.1,
    (claim_C1_amended stickyS2 "E" [] rfl).2.2.2.1 (by decide)⟩

/-- Claim C3: refills that append items to an initially empty buffer are
drained by a single `consumeBufferedItems`, which returns exactly the
appended items in order and leaves the buffer empty. -/
theorem claim_C3_draining {α : Type} (s : DocumentProducer α)
    (outcomes : List (FetchOutcome α)) (hs : s.err = none) (hb : s.itemsBuffer = [])
    (hok : ∀ f ∈ outcomes, f.err = none ∧ f.resources.isSome) :
    ∃ s' : DocumentProducer α, runRefills s outcomes = some s' ∧
      (consumeBufferedItems s').1 = (outcomes.map (fun f => f.resources.getD [])).flatten ∧
      ((consumeBufferedItems s').2).itemsBuffer = [] := by
  obtain ⟨s', hrun, hbuf, _⟩ := runRefills_ok outcomes s hs hok
  refine ⟨s', hrun, ?_, ?_⟩
  · show s'.itemsBuffer = _
    rw [hbuf, hb]
    rfl
  · show (updateStates _ none _).itemsBuffer = []
    rw [updateStates_itemsBuffer]

theorem claim_C3_witness :
    ∃ s' : DocumentProducer Nat, runRefills stickySeed drainScript = some s' ∧
      (consumeBufferedItems s').1 = (drainScript.map (fun f => f.resources.getD [])).flatten ∧
      ((consumeBufferedItems s').2).itemsBuffer = [] :=
  claim_C3_draining stickySeed drainScript rfl rfl (by decide)

theorem currentFuel_val_head {α : Type} :
    ∀ (n : Nat) (s : DocumentProducer α) (script : List (FetchOutcome α))
      (s1 : DocumentProducer α) (cb : CbOut α) (rest : List (FetchOutcome α)) (it : α),
      currentFuel n s script = some (s1, cb, rest) → cb.err = none → cb.val = some it →
      s1.itemsBuffer.head? = some it := by
  intro n
  induction n with
  | zero =>
    intro s script s1 cb rest it h _ _
    exact Option.noConfusion h
  | succ n ih =>
    intro s script s1 cb rest it h herr hval
    rw [currentFuel] at h
    split at h
    · simp only [Option.some.injEq, Prod.mk.injEq] at h
      obtain ⟨h1, h2, -⟩ := h
      subst h1
      subst h2
      simpa using hval
    · split at h
      · simp only [Option.some.injEq, Prod.mk.injEq] at h
        obtain ⟨-, h2, -⟩ := h
        subst h2
        simp at hval
      · split at h
        · exact Option.noConfusion h
        · split at h
          · simp only [Option.some.injEq, Prod.mk.injEq] at h
            obtain ⟨-, h2, -⟩ := h
            subst h2
            simp at herr
          · split at h
            · simp only [Option.some.injEq, Prod.mk.injEq] at h
              obtain ⟨-, h2, -⟩ := h
              subst h2
              simp at hval
            · exact ih _ _ _ _ _ _ h herr hval

/-- Claim C4: whenever `nextItem` completes without error and yields an
item, the `current` call inside it returned exactly that item, the item was
the head of the post-`current` buffer, exactly that head was removed (the
rest of the buffer is untouched), and the internal identity assertion
passed. -/
theorem claim_C4_single_removal {α : Type} [DecidableEq α] (s : DocumentProducer α)
    (script : List (FetchOutcome α)) (s2 : DocumentProducer α) (cb : CbOut α)
    (rest : List (FetchOutcome α)) (a : Option Bool) (it : α)
    (h : nextItem s script = some (s2, cb, rest, a)) (herr : cb.err = none)
    (hval : cb.val = some it) :
    ∃ (s1 : DocumentProducer α) (hd : Option Headers),
      current s script = some (s1, ⟨none, some it, hd⟩, rest) ∧
      s1.itemsBuffer = it :: s2.itemsBuffer ∧
      a = some true := by
  unfold nextItem at h
  split at h
  · simp only [Option.some.injEq, Prod.mk.injEq] at h
    obtain ⟨-, h2, -, -⟩ := h
    subst h2
    simp at herr
  · rename_i hse
    split at h
    · exact Option.noConfusion h
    · rename_i s1 cb1 rest1 heq
      split at h
      · simp only [Option.some.injEq, Prod.mk.injEq] at h
        obtain ⟨-, h2, -, -⟩ := h
        subst h2
        simp at herr
      · rename_i hce
        simp only [Option.some.injEq, Prod.mk.injEq] at h
        obtain ⟨h1, h2, h3, h4⟩ := h
        have hval1 : cb1.val = some it := by
          rw [← h2] at hval
          simpa using hval
        have hhead : s1.itemsBuffer.head? = some it :=
          currentFuel_val_head (script.length + 1) s script s1 cb1 rest1 it heq hce hval1
        have hcb1 : cb1 = ⟨none, some it, cb1.headers⟩ := by
          obtain ⟨e1, v1, d1⟩ := cb1
          simp only [CbOut.mk.injEq]
          exact ⟨hce, hval1, trivial⟩
        refine ⟨s1, cb1.headers, by rw [heq, h3, hcb1], ?_, ?_⟩
        · rw [← h1]
          cases hbuf : s1.itemsBuffer with
          | nil => rw [hbuf] at hhead; exact Option.noConfusion hhead
          | cons x xs =>
            rw [hbuf] at hhead
            simp only [List.head?_cons, Option.some.injEq] at hhead
            subst hhead
            rfl
        · rw [← h4, hhead, hval1]
          simp

theorem claim_C4_witness :
    ∃ (s1 : DocumentProducer Nat) (hd : Option Headers),
      current nextSeed [] = some (s1, ⟨none, some 7, hd⟩, []) ∧
      s1.itemsBuffer = 7 :: nextAfter.itemsBuffer ∧
      (some true : Option Bool) = some true :=
  claim_C4_single_removal nextSeed [] nextAfter ⟨none, some 7, some []⟩ [] (some true) 7
    rfl rfl rfl

/-- Claim C10: with an empty buffer, no sticky error, and the exhaustion
flag set, `nextItem` invokes its callback with no error and an undefined
item, the identity assertion passes (`undefined` shifted, `undefined`
observed), and the buffer stays empty. -/
theorem claim_C10_exhausted_next {α : Type} [DecidableEq α] (s : DocumentProducer α)
    (script : List (FetchOutcome α)) (hb : s.itemsBuffer = []) (he : s.err = none)
    (ha : s.allFetched = true) :
    nextItem s script = some ({ s with respHeaders := getInitialHeader },
      ⟨none, none, some s.respHeaders⟩, script, some true) ∧
    ({ s with respHeaders := getInitialHeader } : DocumentProducer α).itemsBuffer = [] := by
  obtain ⟨pk, buf, af, er, p, c, ic, rh⟩ := s
  dsimp only at hb he ha
  subst hb
  subst he
  subst ha
  exact ⟨rfl, rfl⟩

theorem claim_C10_witness :
    nextItem exhaustedSeed [] = some (⟨rangeLow, [], true, none, none, none, none, []⟩,
      ⟨none, none, some ["m"]⟩, [], some true) ∧
    ({ exhaustedSeed with respHeaders := getInitialHeader } : DocumentProducer Nat).itemsBuffer
      = [] :=
  claim_C10_exhausted_next exhaustedSeed [] rfl rfl rfl
